import Mathlib

/-!
Shallow embedding of the jenkins-job-health-exporter core (src/main.rs)
and proofs about its window reducer (calc_metrics), cycle orchestrator
(get_all_gauge_data), gauge registration and the publish loop in main.

Modelling conventions:
- machine integers (usize, i64) are modelled as Nat / Int; none of the
  arithmetic here can overflow in the quantities the claims talk about;
- HashMap<String, _> is modelled as an association list where insert
  prepends and lookup returns the first match, which is observationally
  the same as overwrite-on-insert for every operation the program uses
  (lookup only, no iteration over entries);
- code that can abort (slice::windows(0) asserts a nonzero window size,
  HashMap indexing aborts on a missing key) is modelled in Option, with
  none standing for the abort;
- the network fetch and the wall clock are oracles: theorems quantify
  over arbitrary functions standing for their per-job results.
-/

/-- One build record as deserialized from the Jenkins API response
(struct OneBuild in src/main.rs). -/
structure OneBuild where
  id : String
  number : Nat
  result : Option String
  timestamp : Nat
  duration : Nat
deriving DecidableEq

/-- Response-body shape: a JSON object with key builds
(struct AllBuilds in src/main.rs). -/
structure AllBuilds where
  builds : List OneBuild
deriving DecidableEq

/-- Error type of a fetch (enum MyError in src/main.rs). -/
inductive MyError where
  | GenericError : String → MyError
deriving DecidableEq

/-- Result type of get_job_builds. The network call itself is out of
scope; theorems quantify over an arbitrary fetch oracle returning this. -/
abbrev FetchResult := Except MyError AllBuilds

/-- Models Result::is_err on a fetch result. -/
def is_err : FetchResult → Bool
  | .error _ => true
  | .ok _ => false

/-- Models HashMap<String, i64> as an association list (see file header). -/
abbrev StrMap := List (String × Int)

/-- Models HashMap::insert: prepend; the first match shadows older entries. -/
def StrMap.insert (m : StrMap) (k : String) (v : Int) : StrMap := (k, v) :: m

/-- Models HashMap::get / indexing: first entry with the given key. -/
def StrMap.find? : StrMap → String → Option Int
  | [], _ => none
  | (k, v) :: rest, key => if key = k then some v else StrMap.find? rest key

/-- Models str::to_uppercase for the ASCII label strings used here
("success", "failure", "unstable"). -/
def to_uppercase (s : String) : String := ⟨s.data.map Char.toUpper⟩

/-- Vocabulary of recognized outcome labels
(let statuses = vec!["success", "failure", "unstable"] in calc_metrics). -/
def statuses : List String := ["success", "failure", "unstable"]

/-- Models data.builds.windows(try_total).nth(0): the first window of
length try_total, i.e. the leading slice, or none when the slice is
shorter than try_total. The try_total = 0 case (slice::windows asserts a
nonzero size) is handled by the caller. -/
def windows_nth0 (l : List OneBuild) (n : Nat) : Option (List OneBuild) :=
  if l.length < n then none else some (l.take n)

/-- Zero metrics map built at the top of calc_metrics: total plus one
entry per status label, all 0. -/
def zero_out : StrMap :=
  List.foldl (fun m s => StrMap.insert m s 0) (StrMap.insert [] "total" 0) statuses

/-- The filter closure inside the status loop of calc_metrics:
if let Some(res) = &x.result { res == &st.to_uppercase() } else { false }. -/
def status_match (st : String) (x : OneBuild) : Bool :=
  match x.result with
  | some res => res = to_uppercase st
  | none => false

/-- Models fn calc_metrics (src/main.rs:82-126). Returns none exactly
where the Rust code aborts: builds.windows(0) on a successful fetch
result. The verbose argument only gates logging in the source and has no
effect on the returned map. -/
def calc_metrics : FetchResult → Nat → Int → Option StrMap
  | .error _, _, _ => some zero_out
  | .ok data, try_total, _ =>
    if try_total = 0 then none
    else
      match windows_nth0 data.builds try_total with
      | none => some zero_out
      | some last_n =>
        let out := StrMap.insert zero_out "total" (last_n.length : Int)
        some (List.foldl (fun m st =>
          StrMap.insert m st
            ((List.filter (status_match st) last_n).length : Int)) out statuses)

/-- Value stored under one key of the map calc_metrics computes, when
calc_metrics terminates. -/
def metricOf (data : FetchResult) (try_total : Nat) (verbose : Int) (key : String) : Option Int :=
  Option.bind (calc_metrics data try_total verbose) (fun m => StrMap.find? m key)

/-- Models HashMap<String, HashMap<String, i64>> (the gauges field of
AllGaugeData) the same way as StrMap. -/
abbrev JobMap := List (String × StrMap)

/-- Models HashMap::insert on the outer map. -/
def JobMap.insert (m : JobMap) (k : String) (v : StrMap) : JobMap := (k, v) :: m

/-- Models HashMap::get / indexing on the outer map. -/
def JobMap.find? : JobMap → String → Option StrMap
  | [], _ => none
  | (k, v) :: rest, key => if key = k then some v else JobMap.find? rest key

/-- Models gauges.get_mut(job).unwrap().insert(..): apply f to the entry
that a lookup of key would find. -/
def JobMap.modify : JobMap → String → (StrMap → StrMap) → JobMap
  | [], _, _ => []
  | (k, v) :: rest, key, f =>
    if key = k then (k, f v) :: rest else (k, v) :: JobMap.modify rest key f

/-- Models struct AllGaugeData. -/
structure AllGaugeData where
  gauges : JobMap
  req_counter : Int
  req_err_counter : Int

/-- Per-job elapsed-time value: now.elapsed() in milliseconds on success,
the sentinel -1 when the clock read fails (the Err branch also logs,
which is outside the embedding). The clock oracle returns none for a
failed read. -/
def elapsed_of (clock : String → Option Int) (job : String) : Int :=
  match clock job with
  | some e => e
  | none => -1

/-- Loop body of fn get_all_gauge_data (src/main.rs:135-166), one
iteration per configured job, threading the accumulated AllGaugeData.
none stands for an abort inside calc_metrics. -/
def get_all_gauge_data_go (fetch : String → FetchResult) (clock : String → Option Int)
    (last_builds : Nat) (verbose : Int) : List String → AllGaugeData → Option AllGaugeData
  | [], out => some out
  | job :: rest, out =>
    let out1 : AllGaugeData := { out with req_counter := out.req_counter + 1 }
    let response := fetch job
    let elapsed := elapsed_of clock job
    let out2 : AllGaugeData :=
      if is_err response then { out1 with req_err_counter := out1.req_err_counter + 1 } else out1
    match calc_metrics response last_builds verbose with
    | none => none
    | some metrics =>
      let g1 := JobMap.insert out2.gauges job metrics
      let g2 := JobMap.modify g1 job (fun m => StrMap.insert m "job_reqtime_ms" elapsed)
      get_all_gauge_data_go fetch clock last_builds verbose rest { out2 with gauges := g2 }

/-- Models fn get_all_gauge_data: fold the per-job loop over the
configured job list starting from Default::default(). -/
def get_all_gauge_data (jobs : List String) (fetch : String → FetchResult)
    (clock : String → Option Int) (last_builds : Nat) (verbose : Int) : Option AllGaugeData :=
  get_all_gauge_data_go fetch clock last_builds verbose jobs ⟨[], 0, 0⟩

/-- Models new_data.gauges[&job][&gauge_name] in the publish loop of
main: two indexings, each of which aborts on a missing key. -/
def lookupPair (s : JobMap) (job key : String) : Option Int :=
  Option.bind (JobMap.find? s job) (fun m => StrMap.find? m key)

/-- Models the gauge_info vector in main: metric-name suffix and help
text of the five per-job gauges. -/
def gauge_info : List (String × String) :=
  [("total", "last builds total"),
   ("success", "last builds with SUCCESS"),
   ("failure", "last builds with FAILURE"),
   ("unstable", "last builds with UNSTABLE"),
   ("job_reqtime_ms", "how long the last Jenkins API request took")]

/-- The five per-job metric names (first components of gauge_info). -/
def gauge_names : List String := List.map Prod.fst gauge_info

/-- Inner publish loop of main for one job: look up every gauge value in
the snapshot; none stands for the abort on a missing key. -/
def publish_job (snapshot : JobMap) (job : String) : List String → Option (List (String × Int))
  | [] => some []
  | g :: rest =>
    match lookupPair snapshot job g with
    | none => none
    | some d =>
      match publish_job snapshot job rest with
      | none => none
      | some l => some ((g, d) :: l)

/-- Outer publish loop of main: the sequence of gauge .set calls
(job, gauge name, value) for one snapshot, or none if any configured
(job, gauge) pair is missing from the snapshot. -/
def publish_all (snapshot : JobMap) : List String → List String → Option (List (String × String × Int))
  | [], _ => some []
  | job :: rest, gs =>
    match publish_job snapshot job gs with
    | none => none
    | some l =>
      match publish_all snapshot rest gs with
      | none => none
      | some l2 => some ((List.map (fun p => (job, p.1, p.2)) l) ++ l2)

/-- Models job.clone().replace("-", "_") from the gauge-registration loop
in main; the pattern is the single character '-', so substring
replacement coincides with a character map. -/
def replace_dashes (s : String) : String :=
  ⟨s.data.map (fun c => if c = '-' then '_' else c)⟩

/-- Names of the gauges registered at startup, in registration order:
for every job, for every gauge_info entry, the sanitized job identifier
followed by an underscore and the gauge suffix
(format!("{}_{}", metric_name, gauge_name)). -/
def registered_gauge_names (jobs : List String) : List String :=
  List.flatten (List.map (fun job =>
    List.map (fun gi => replace_dashes job ++ "_" ++ gi.1) gauge_info) jobs)

/-- Number of records of a window whose outcome is exactly the given
label (a specification-side counting function used to state what
calc_metrics computes; the match is case-sensitive string equality). -/
def count_status (w : List OneBuild) (label : String) : Nat :=
  (List.filter (fun x => x.result = some label) w).length

/-- Value stored in the metrics map under one key, 0 when absent
(specification-side accessor used to state the invariants). -/
def mval (m : StrMap) (key : String) : Int :=
  (StrMap.find? m key).getD 0

/-! ### Concrete data used by counterexamples and witnesses -/

/-- History of 12 builds whose last 5 records (in list order) carry the
outcomes SUCCESS, SUCCESS, FAILURE, UNSTABLE, SUCCESS and whose first 7
records carry no outcome. -/
def hist12 : List OneBuild :=
  [⟨"12", 12, none, 0, 0⟩, ⟨"11", 11, none, 0, 0⟩, ⟨"10", 10, none, 0, 0⟩,
   ⟨"9", 9, none, 0, 0⟩, ⟨"8", 8, none, 0, 0⟩, ⟨"7", 7, none, 0, 0⟩,
   ⟨"6", 6, none, 0, 0⟩,
   ⟨"5", 5, some "SUCCESS", 0, 0⟩, ⟨"4", 4, some "SUCCESS", 0, 0⟩,
   ⟨"3", 3, some "FAILURE", 0, 0⟩, ⟨"2", 2, some "UNSTABLE", 0, 0⟩,
   ⟨"1", 1, some "SUCCESS", 0, 0⟩]

/-- History of 12 builds whose first 5 records (in list order) carry the
outcomes SUCCESS, SUCCESS, FAILURE, UNSTABLE, SUCCESS and whose last 7
records carry no outcome. -/
def hist12b : List OneBuild :=
  [⟨"12", 12, some "SUCCESS", 0, 0⟩, ⟨"11", 11, some "SUCCESS", 0, 0⟩,
   ⟨"10", 10, some "FAILURE", 0, 0⟩, ⟨"9", 9, some "UNSTABLE", 0, 0⟩,
   ⟨"8", 8, some "SUCCESS", 0, 0⟩,
   ⟨"7", 7, none, 0, 0⟩, ⟨"6", 6, none, 0, 0⟩, ⟨"5", 5, none, 0, 0⟩,
   ⟨"4", 4, none, 0, 0⟩, ⟨"3", 3, none, 0, 0⟩, ⟨"2", 2, none, 0, 0⟩,
   ⟨"1", 1, none, 0, 0⟩]

/-- History of 5 builds exercising case-sensitivity of the outcome
match: one exact SUCCESS, two case variants, one absent outcome, one
unrecognized label. -/
def histMixed : List OneBuild :=
  [⟨"5", 5, some "SUCCESS", 0, 0⟩, ⟨"4", 4, some "success", 0, 0⟩,
   ⟨"3", 3, some "Success", 0, 0⟩, ⟨"2", 2, none, 0, 0⟩,
   ⟨"1", 1, some "ABORTED", 0, 0⟩]

/-- Three concrete builds used by witnesses. -/
def sampleBuilds : List OneBuild :=
  [⟨"3", 3, some "SUCCESS", 0, 0⟩, ⟨"2", 2, some "FAILURE", 0, 0⟩,
   ⟨"1", 1, none, 0, 0⟩]

/-- Two configured jobs used by witnesses. -/
def sampleJobs : List String := ["alpha", "beta"]

/-- Fetch oracle used by witnesses: alpha fails, every other job gets
sampleBuilds. -/
def sampleFetch : String → FetchResult := fun j =>
  if j = "alpha" then .error (.GenericError "timeout") else .ok ⟨sampleBuilds⟩

/-- Clock oracle used by witnesses: every read yields 12 ms. -/
def sampleClock : String → Option Int := fun _ => some 12

/-- Clock oracle whose every read fails. -/
def sampleClockFail : String → Option Int := fun _ => none

/-- The snapshot of one concrete cycle over sampleJobs. -/
def sampleSnapshot : AllGaugeData :=
  (get_all_gauge_data sampleJobs sampleFetch sampleClock 1 0).getD ⟨[], 0, 0⟩

/-- The snapshot of one concrete cycle whose clock reads all fail. -/
def sampleSnapshotFail : AllGaugeData :=
  (get_all_gauge_data sampleJobs sampleFetch sampleClockFail 1 0).getD ⟨[], 0, 0⟩

/-! ### Lookup lemmas for the association-list maps -/

theorem StrMap.find?_insert_self (m : StrMap) (k : String) (v : Int) :
    StrMap.find? (StrMap.insert m k v) k = some v := by
  simp [StrMap.insert, StrMap.find?]

theorem StrMap.find?_insert_ne (m : StrMap) (k k2 : String) (v : Int) (h : k2 ≠ k) :
    StrMap.find? (StrMap.insert m k v) k2 = StrMap.find? m k2 := by
  simp [StrMap.insert, StrMap.find?, h]

/-! ### Shape of the map calc_metrics computes -/

theorem status_match_eq (st : String) (x : OneBuild) :
    status_match st x = decide (x.result = some (to_uppercase st)) := by
  unfold status_match
  cases x.result <;> simp

theorem filter_status_match (w : List OneBuild) (st : String) :
    List.filter (status_match st) w =
      List.filter (fun x => x.result = some (to_uppercase st)) w := by
  refine List.filter_congr ?_
  intro x _
  exact status_match_eq st x

theorem calc_metrics_err (e : MyError) (n : Nat) (v : Int) :
    calc_metrics (.error e) n v = some zero_out := rfl

theorem calc_metrics_short (d : AllBuilds) (n : Nat) (v : Int) (h : d.builds.length < n) :
    calc_metrics (.ok d) n v = some zero_out := by
  simp only [calc_metrics, windows_nth0]
  rw [if_neg (by omega), if_pos h]

theorem calc_metrics_ok_of_le (d : AllBuilds) (n : Nat) (v : Int) (hn : n ≠ 0)
    (hlen : n ≤ d.builds.length) :
    calc_metrics (.ok d) n v = some
      (StrMap.insert (StrMap.insert (StrMap.insert
        (StrMap.insert zero_out "total" ((List.take n d.builds).length : Int))
        "success" (count_status (List.take n d.builds) "SUCCESS"))
        "failure" (count_status (List.take n d.builds) "FAILURE"))
        "unstable" (count_status (List.take n d.builds) "UNSTABLE")) := by
  simp only [calc_metrics, windows_nth0]
  rw [if_neg hn, if_neg (by omega)]
  simp only [statuses, List.foldl]
  rw [filter_status_match, filter_status_match, filter_status_match]
  rfl

theorem calc_metrics_isSome (data : FetchResult) (n : Nat) (v : Int) (hn : n ≠ 0) :
    (calc_metrics data n v).isSome := by
  cases data with
  | error e => rw [calc_metrics_err]; rfl
  | ok d =>
    by_cases h : d.builds.length < n
    · rw [calc_metrics_short d n v h]; rfl
    · rw [calc_metrics_ok_of_le d n v hn (by omega)]; rfl

theorem metricOf_ok_spec (d : AllBuilds) (n : Nat) (v : Int) (hn : n ≠ 0)
    (hlen : n ≤ d.builds.length) :
    metricOf (.ok d) n v "total" = some (n : Int) ∧
    metricOf (.ok d) n v "success" = some ((count_status (List.take n d.builds) "SUCCESS" : Nat) : Int) ∧
    metricOf (.ok d) n v "failure" = some ((count_status (List.take n d.builds) "FAILURE" : Nat) : Int) ∧
    metricOf (.ok d) n v "unstable" = some ((count_status (List.take n d.builds) "UNSTABLE" : Nat) : Int) := by
  have hlen2 : (List.take n d.builds).length = n := by
    simp [List.length_take]; omega
  unfold metricOf
  rw [calc_metrics_ok_of_le d n v hn hlen]
  simp only [Option.some_bind]
  refine ⟨?_, ?_, ?_, ?_⟩
  · rw [StrMap.find?_insert_ne _ _ _ _ (by decide), StrMap.find?_insert_ne _ _ _ _ (by decide),
      StrMap.find?_insert_ne _ _ _ _ (by decide), StrMap.find?_insert_self, hlen2]
  · rw [StrMap.find?_insert_ne _ _ _ _ (by decide), StrMap.find?_insert_ne _ _ _ _ (by decide),
      StrMap.find?_insert_self]
  · rw [StrMap.find?_insert_ne _ _ _ _ (by decide), StrMap.find?_insert_self]
  · rw [StrMap.find?_insert_self]

/-! ### The three status counts never exceed the window length -/

theorem count_status_cons (a : OneBuild) (t : List OneBuild) (label : String) :
    count_status (a :: t) label =
      count_status t label + (if a.result = some label then 1 else 0) := by
  by_cases h : a.result = some label <;>
    simp [count_status, List.filter_cons, h]

theorem count_three_le (l : List OneBuild) :
    count_status l "SUCCESS" + count_status l "FAILURE" + count_status l "UNSTABLE" ≤
      l.length := by
  induction l with
  | nil => simp [count_status]
  | cons a t ih =>
    rw [count_status_cons, count_status_cons, count_status_cons, List.length_cons]
    rcases hr : a.result with _ | r
    · simpa using Nat.le_succ_of_le ih
    · by_cases h1 : r = "SUCCESS" <;> by_cases h2 : r = "FAILURE" <;>
        by_cases h3 : r = "UNSTABLE" <;> simp_all <;> omega

/-! ### Normal form of one orchestrator iteration -/

theorem go_cons (fetch : String → FetchResult) (clock : String → Option Int)
    (n : Nat) (v : Int) (job : String) (rest : List String) (out : AllGaugeData) :
    get_all_gauge_data_go fetch clock n v (job :: rest) out =
      match calc_metrics (fetch job) n v with
      | none => none
      | some metrics =>
        get_all_gauge_data_go fetch clock n v rest
          { gauges := (job, StrMap.insert metrics "job_reqtime_ms" (elapsed_of clock job))
              :: out.gauges,
            req_counter := out.req_counter + 1,
            req_err_counter :=
              out.req_err_counter + (if is_err (fetch job) then 1 else 0) } := by
  cases hcm : calc_metrics (fetch job) n v <;> cases he : is_err (fetch job) <;>
    simp [get_all_gauge_data_go, JobMap.insert, JobMap.modify, he, hcm]

/-! ### Orchestrator invariants, by induction over the job list -/

theorem go_isSome (fetch : String → FetchResult) (clock : String → Option Int)
    (n : Nat) (v : Int) (hn : n ≠ 0) :
    ∀ (jobs : List String) (acc : AllGaugeData),
      (get_all_gauge_data_go fetch clock n v jobs acc).isSome := by
  intro jobs
  induction jobs with
  | nil => intro acc; simp [get_all_gauge_data_go]
  | cons job rest ih =>
    intro acc
    rw [go_cons]
    have h := calc_metrics_isSome (fetch job) n v hn
    cases hcm : calc_metrics (fetch job) n v with
    | none => rw [hcm] at h; simp at h
    | some m => exact ih _

theorem go_find?_iff (fetch : String → FetchResult) (clock : String → Option Int)
    (n : Nat) (v : Int) :
    ∀ (jobs : List String) (acc out : AllGaugeData),
      get_all_gauge_data_go fetch clock n v jobs acc = some out →
      ∀ j, (JobMap.find? out.gauges j).isSome ↔
        (j ∈ jobs ∨ (JobMap.find? acc.gauges j).isSome) := by
  intro jobs
  induction jobs with
  | nil =>
    intro acc out h j
    simp only [get_all_gauge_data_go, Option.some.injEq] at h
    subst h
    simp
  | cons job rest ih =>
    intro acc out h j
    rw [go_cons] at h
    cases hcm : calc_metrics (fetch job) n v with
    | none => rw [hcm] at h; simp at h
    | some m =>
      rw [hcm] at h
      rw [ih _ _ h j]
      by_cases hj : j = job <;> simp [JobMap.find?, hj, List.mem_cons]

theorem go_counters (fetch : String → FetchResult) (clock : String → Option Int)
    (n : Nat) (v : Int) :
    ∀ (jobs : List String) (acc out : AllGaugeData),
      get_all_gauge_data_go fetch clock n v jobs acc = some out →
      out.req_counter = acc.req_counter + (jobs.length : Int) ∧
      out.req_err_counter =
        acc.req_err_counter + ((List.countP (fun j => is_err (fetch j)) jobs : Nat) : Int) := by
  intro jobs
  induction jobs with
  | nil =>
    intro acc out h
    simp only [get_all_gauge_data_go, Option.some.injEq] at h
    subst h
    simp
  | cons job rest ih =>
    intro acc out h
    rw [go_cons] at h
    cases hcm : calc_metrics (fetch job) n v with
    | none => rw [hcm] at h; simp at h
    | some m =>
      rw [hcm] at h
      have := ih _ _ h
      rw [List.length_cons, List.countP_cons]
      rcases this with ⟨h1, h2⟩
      constructor
      · rw [h1]; push_cast; ring
      · rw [h2]
        by_cases he : is_err (fetch job)
        · simp [he]
          omega
        · simp [he]

theorem go_find?_of_not_mem (fetch : String → FetchResult) (clock : String → Option Int)
    (n : Nat) (v : Int) :
    ∀ (jobs : List String) (acc out : AllGaugeData),
      get_all_gauge_data_go fetch clock n v jobs acc = some out →
      ∀ j, j ∉ jobs → JobMap.find? out.gauges j = JobMap.find? acc.gauges j := by
  intro jobs
  induction jobs with
  | nil =>
    intro acc out h j _
    simp only [get_all_gauge_data_go, Option.some.injEq] at h
    subst h
    rfl
  | cons job rest ih =>
    intro acc out h j hj
    rw [go_cons] at h
    cases hcm : calc_metrics (fetch job) n v with
    | none => rw [hcm] at h; simp at h
    | some m =>
      rw [hcm] at h
      have hj1 : j ≠ job := fun he => hj (he ▸ List.mem_cons_self job rest)
      have hj2 : j ∉ rest := fun he => hj (List.mem_cons_of_mem job he)
      rw [ih _ _ h j hj2]
      simp [JobMap.find?, hj1]

theorem go_reqtime (fetch : String → FetchResult) (clock : String → Option Int)
    (n : Nat) (v : Int) :
    ∀ (jobs : List String) (acc out : AllGaugeData),
      get_all_gauge_data_go fetch clock n v jobs acc = some out →
      ∀ j, j ∈ jobs →
        lookupPair out.gauges j "job_reqtime_ms" = some (elapsed_of clock j) := by
  intro jobs
  induction jobs with
  | nil => intro acc out _ j hj; simp at hj
  | cons job rest ih =>
    intro acc out h j hj
    rw [go_cons] at h
    cases hcm : calc_metrics (fetch job) n v with
    | none => rw [hcm] at h; simp at h
    | some m =>
      rw [hcm] at h
      by_cases hjr : j ∈ rest
      · exact ih _ _ h j hjr
      · have hj1 : j = job := by
          rcases List.mem_cons.mp hj with h1 | h1
          · exact h1
          · exact absurd h1 hjr
        subst hj1
        have hfind := go_find?_of_not_mem fetch clock n v rest _ out h j hjr
        rw [lookupPair, hfind]
        simp [JobMap.find?, StrMap.insert, StrMap.find?]

/-! ### Publish loop lemmas -/

theorem publish_job_none (snapshot : JobMap) (job : String) :
    ∀ (gs : List String) (g : String), g ∈ gs →
      lookupPair snapshot job g = none → publish_job snapshot job gs = none := by
  intro gs
  induction gs with
  | nil => intro g hg _; simp at hg
  | cons a rest ih =>
    intro g hg hmiss
    rcases List.mem_cons.mp hg with h | h
    · subst h
      simp [publish_job, hmiss]
    · simp only [publish_job]
      cases lookupPair snapshot job a with
      | none => rfl
      | some d => rw [ih g h hmiss]

theorem publish_all_none (snapshot : JobMap) (gs : List String) :
    ∀ (jobs : List String) (job : String), job ∈ jobs →
      publish_job snapshot job gs = none → publish_all snapshot jobs gs = none := by
  intro jobs
  induction jobs with
  | nil => intro job hj _; simp at hj
  | cons a rest ih =>
    intro job hj hnone
    rcases List.mem_cons.mp hj with h | h
    · subst h
      simp [publish_all, hnone]
    · simp only [publish_all]
      cases publish_job snapshot a gs with
      | none => rfl
      | some l => rw [ih job h hnone]

/-! ### Claim theorems -/

/-- C1 counterexample: on a history of 12 builds whose last 5 records
(oldest-to-newest in the given order) have outcomes SUCCESS, SUCCESS,
FAILURE, UNSTABLE, SUCCESS, calc_metrics with window 5 reports 0
successes, not the 3 the claim predicts: the reducer does not use the
trailing slice of the history. -/
theorem C1_counterexample :
    metricOf (.ok ⟨hist12⟩) 5 0 "success" = some 0 ∧
    ¬ metricOf (.ok ⟨hist12⟩) 5 0 "success" = some 3 := by
  refine ⟨rfl, ?_⟩
  decide

/-- C1 (amended): for every fetched history with at least window_size
records, calc_metrics computes its counts over the FIRST window_size
records — the leading slice of the history in server order (which for
the Jenkins API is newest-first) — never over the trailing slice; in
particular on a 12-build history whose first 5 records have outcomes
SUCCESS, SUCCESS, FAILURE, UNSTABLE, SUCCESS and window 5 it returns
total=5, success=3, failure=1, unstable=1. -/
theorem C1_leading_window (d : AllBuilds) (n : Nat) (v : Int)
    (hn : n ≠ 0) (hlen : n ≤ d.builds.length) :
    calc_metrics (.ok d) n v = calc_metrics (.ok ⟨List.take n d.builds⟩) n v ∧
    metricOf (.ok d) n v "total" = some (n : Int) ∧
    metricOf (.ok ⟨hist12b⟩) 5 0 "total" = some 5 ∧
    metricOf (.ok ⟨hist12b⟩) 5 0 "success" = some 3 ∧
    metricOf (.ok ⟨hist12b⟩) 5 0 "failure" = some 1 ∧
    metricOf (.ok ⟨hist12b⟩) 5 0 "unstable" = some 1 := by
  have hlen2 : n ≤ (List.take n d.builds).length := by
    simp [List.length_take]; omega
  refine ⟨?_, (metricOf_ok_spec d n v hn hlen).1, rfl, rfl, rfl, rfl⟩
  rw [calc_metrics_ok_of_le d n v hn hlen,
    calc_metrics_ok_of_le ⟨List.take n d.builds⟩ n v hn hlen2]
  simp [List.take_take]

/-- C1 witness: the amended theorem applied to the concrete 12-build
history hist12b with window 5. -/
theorem C1_witness :
    (5 ≠ 0) ∧ 5 ≤ hist12b.length ∧
    (calc_metrics (.ok ⟨hist12b⟩) 5 0 = calc_metrics (.ok ⟨List.take 5 hist12b⟩) 5 0 ∧
     metricOf (.ok ⟨hist12b⟩) 5 0 "total" = some 5 ∧
     metricOf (.ok ⟨hist12b⟩) 5 0 "total" = some 5 ∧
     metricOf (.ok ⟨hist12b⟩) 5 0 "success" = some 3 ∧
     metricOf (.ok ⟨hist12b⟩) 5 0 "failure" = some 1 ∧
     metricOf (.ok ⟨hist12b⟩) 5 0 "unstable" = some 1) :=
  ⟨by decide, by decide, C1_leading_window ⟨hist12b⟩ 5 0 (by decide) (by decide)⟩

/-- C2: for every history with fewer than window_size records,
calc_metrics on a successful fetch result returns the all-zero metrics
map: total=0, success=0, failure=0, unstable=0. -/
theorem C2_short_history_zero (d : AllBuilds) (n : Nat) (v : Int)
    (h : d.builds.length < n) :
    calc_metrics (.ok d) n v = some zero_out ∧
    metricOf (.ok d) n v "total" = some 0 ∧
    metricOf (.ok d) n v "success" = some 0 ∧
    metricOf (.ok d) n v "failure" = some 0 ∧
    metricOf (.ok d) n v "unstable" = some 0 := by
  have hc := calc_metrics_short d n v h
  refine ⟨hc, ?_, ?_, ?_, ?_⟩ <;> (unfold metricOf; rw [hc]; rfl)

/-- C2 witness: the theorem applied to a 3-build history with window
size 10 (Scenario B of the specification). -/
theorem C2_witness :
    (sampleBuilds.length < 10) ∧
    (calc_metrics (.ok ⟨sampleBuilds⟩) 10 0 = some zero_out ∧
     metricOf (.ok ⟨sampleBuilds⟩) 10 0 "total" = some 0 ∧
     metricOf (.ok ⟨sampleBuilds⟩) 10 0 "success" = some 0 ∧
     metricOf (.ok ⟨sampleBuilds⟩) 10 0 "failure" = some 0 ∧
     metricOf (.ok ⟨sampleBuilds⟩) 10 0 "unstable" = some 0) :=
  ⟨by decide, C2_short_history_zero ⟨sampleBuilds⟩ 10 0 (by decide)⟩

/-- C3: every metrics map calc_metrics returns (any fetch result, any
window size for which it terminates) satisfies
success + failure + unstable ≤ total, and total is either 0 or the
window size, never any other value. -/
theorem C3_invariant (data : FetchResult) (n : Nat) (v : Int) (m : StrMap)
    (h : calc_metrics data n v = some m) :
    mval m "success" + mval m "failure" + mval m "unstable" ≤ mval m "total" ∧
    (mval m "total" = 0 ∨ mval m "total" = (n : Int)) := by
  cases data with
  | error e =>
    rw [calc_metrics_err] at h
    injection h with h
    subst h
    exact ⟨by decide, Or.inl (by decide)⟩
  | ok d =>
    by_cases hn : n = 0
    · subst hn
      simp [calc_metrics] at h
    · by_cases hlen : d.builds.length < n
      · rw [calc_metrics_short d n v hlen] at h
        injection h with h
        subst h
        exact ⟨by decide, Or.inl (by decide)⟩
      · have hspec := metricOf_ok_spec d n v hn (by omega)
        unfold metricOf at hspec
        simp only [h, Option.some_bind] at hspec
        obtain ⟨ht, hs, hf, hu⟩ := hspec
        have hlen2 : (List.take n d.builds).length = n := by
          simp [List.length_take]; omega
        have hcount := count_three_le (List.take n d.builds)
        rw [hlen2] at hcount
        unfold mval
        rw [ht, hs, hf, hu]
        simp only [Option.getD_some]
        constructor
        · omega
        · right; trivial

/-- C3 witness: the theorem applied to an errored fetch with window
size 7, whose output is the all-zero map. -/
theorem C3_witness :
    (calc_metrics (.error (.GenericError "e")) 7 0 = some zero_out) ∧
    (mval zero_out "success" + mval zero_out "failure" + mval zero_out "unstable" ≤
        mval zero_out "total" ∧
      (mval zero_out "total" = 0 ∨ mval zero_out "total" = ((7 : Nat) : Int))) :=
  ⟨rfl, C3_invariant (.error (.GenericError "e")) 7 0 zero_out rfl⟩

/-- C4: every snapshot a cycle produces contains an entry for exactly
the configured jobs — its job-key set equals the configured job-key set
for every fetch oracle, i.e. regardless of how many fetches failed — and
with a nonzero window size the cycle always completes, so one job's
fetch error never prevents another job from being processed and never
aborts the cycle. -/
theorem C4_snapshot_covers (jobs : List String) (fetch : String → FetchResult)
    (clock : String → Option Int) (n : Nat) (v : Int) :
    (∀ out, get_all_gauge_data jobs fetch clock n v = some out →
      ∀ j, (JobMap.find? out.gauges j).isSome ↔ j ∈ jobs) ∧
    (n ≠ 0 → ∃ out, get_all_gauge_data jobs fetch clock n v = some out) := by
  constructor
  · intro out h j
    unfold get_all_gauge_data at h
    have := go_find?_iff fetch clock n v jobs ⟨[], 0, 0⟩ out h j
    simpa [JobMap.find?] using this
  · intro hn
    exact Option.isSome_iff_exists.mp (go_isSome fetch clock n v hn jobs ⟨[], 0, 0⟩)

/-- C4 witness: a concrete two-job cycle in which the fetch of job alpha
fails and the fetch of job beta succeeds. -/
theorem C4_witness :
    ((JobMap.find? sampleSnapshot.gauges "alpha").isSome ↔ "alpha" ∈ sampleJobs) ∧
    (∃ out, get_all_gauge_data sampleJobs sampleFetch sampleClock 1 0 = some out) :=
  ⟨(C4_snapshot_covers sampleJobs sampleFetch sampleClock 1 0).1 sampleSnapshot rfl "alpha",
   (C4_snapshot_covers sampleJobs sampleFetch sampleClock 1 0).2 (by decide)⟩

/-- C5: for every completed cycle, req_counter equals the number of
configured jobs and req_err_counter equals the number of jobs whose
fetch returned an error — incremented exactly on fetch errors — so
requests_failed is at most requests_attempted. -/
theorem C5_request_counters (jobs : List String) (fetch : String → FetchResult)
    (clock : String → Option Int) (n : Nat) (v : Int) (hn : n ≠ 0) :
    ∃ out, get_all_gauge_data jobs fetch clock n v = some out ∧
      out.req_counter = (jobs.length : Int) ∧
      out.req_err_counter = ((List.countP (fun j => is_err (fetch j)) jobs : Nat) : Int) ∧
      out.req_err_counter ≤ out.req_counter := by
  obtain ⟨out, hout⟩ :=
    Option.isSome_iff_exists.mp (go_isSome fetch clock n v hn jobs ⟨[], 0, 0⟩)
  refine ⟨out, hout, ?_⟩
  have hc := go_counters fetch clock n v jobs ⟨[], 0, 0⟩ out hout
  obtain ⟨h1, h2⟩ := hc
  have hle : List.countP (fun j => is_err (fetch j)) jobs ≤ jobs.length :=
    List.countP_le_length _
  simp only at h1 h2
  refine ⟨by omega, by omega, by omega⟩

/-- C5 witness: the concrete two-job cycle (one fetch error) has
req_counter = 2 and req_err_counter = 1. -/
theorem C5_witness :
    (1 ≠ 0) ∧
    (∃ out, get_all_gauge_data sampleJobs sampleFetch sampleClock 1 0 = some out ∧
      out.req_counter = (sampleJobs.length : Int) ∧
      out.req_err_counter =
        ((List.countP (fun j => is_err (sampleFetch j)) sampleJobs : Nat) : Int) ∧
      out.req_err_counter ≤ out.req_counter) :=
  ⟨by decide, C5_request_counters sampleJobs sampleFetch sampleClock 1 0 (by decide)⟩

/-- C6: at publish time, if any configured (job, gauge-name) pair has no
entry in the cycle snapshot, the publish loop aborts (none, the model of
the index panic); there is no non-fatal return path for a missing key. -/
theorem C6_missing_key_fatal (snapshot : JobMap) (jobs : List String) (job g : String)
    (hj : job ∈ jobs) (hg : g ∈ gauge_names)
    (hmiss : lookupPair snapshot job g = none) :
    publish_all snapshot jobs gauge_names = none :=
  publish_all_none snapshot gauge_names jobs job hj
    (publish_job_none snapshot job gauge_names g hg hmiss)

/-- C6 witness: publishing an empty snapshot for one configured job
aborts. -/
theorem C6_witness :
    ("a" ∈ ["a"]) ∧ ("total" ∈ gauge_names) ∧
    (lookupPair [] "a" "total" = none) ∧
    publish_all [] ["a"] gauge_names = none :=
  ⟨by decide, by decide, rfl,
   C6_missing_key_fatal [] ["a"] "a" "total" (by decide) (by decide) rfl⟩

/-- C7: over the window it processes, calc_metrics counts a record in
the success/failure/unstable bucket exactly when its outcome string
equals, case-sensitively, "SUCCESS" / "FAILURE" / "UNSTABLE"
(count_status is defined by the predicate x.result = some label, i.e.
membership in a bucket holds iff the outcome equals that exact label);
records with an absent or unrecognized outcome are counted in total
(which is the full window size) but in no named bucket. -/
theorem C7_exact_label_match (d : AllBuilds) (n : Nat) (v : Int)
    (hn : n ≠ 0) (hlen : n ≤ d.builds.length) :
    metricOf (.ok d) n v "total" = some (n : Int) ∧
    metricOf (.ok d) n v "success" =
      some ((count_status (List.take n d.builds) "SUCCESS" : Nat) : Int) ∧
    metricOf (.ok d) n v "failure" =
      some ((count_status (List.take n d.builds) "FAILURE" : Nat) : Int) ∧
    metricOf (.ok d) n v "unstable" =
      some ((count_status (List.take n d.builds) "UNSTABLE" : Nat) : Int) :=
  metricOf_ok_spec d n v hn hlen

/-- C7 witness: a history mixing the exact label SUCCESS with the case
variants success and Success, an absent outcome and an unrecognized
label ABORTED: only the exact match is counted. -/
theorem C7_witness :
    (5 ≠ 0) ∧ 5 ≤ histMixed.length ∧
    count_status (List.take 5 histMixed) "SUCCESS" = 1 ∧
    (metricOf (.ok ⟨histMixed⟩) 5 0 "total" = some 5 ∧
     metricOf (.ok ⟨histMixed⟩) 5 0 "success" =
       some ((count_status (List.take 5 histMixed) "SUCCESS" : Nat) : Int) ∧
     metricOf (.ok ⟨histMixed⟩) 5 0 "failure" =
       some ((count_status (List.take 5 histMixed) "FAILURE" : Nat) : Int) ∧
     metricOf (.ok ⟨histMixed⟩) 5 0 "unstable" =
       some ((count_status (List.take 5 histMixed) "UNSTABLE" : Nat) : Int)) :=
  ⟨by decide, by decide, by decide,
   C7_exact_label_match ⟨histMixed⟩ 5 0 (by decide) (by decide)⟩

/-- C8: for every job of every cycle, if the wall-clock elapsed read
fails for that job, the job's recorded request latency in the snapshot
is the sentinel -1 and its metrics entry is still present; a clock
failure never aborts the cycle (with a nonzero window the cycle always
completes regardless of the clock oracle). -/
theorem C8_clock_failure_sentinel (jobs : List String) (fetch : String → FetchResult)
    (clock : String → Option Int) (n : Nat) (v : Int) (job : String)
    (hj : job ∈ jobs) (hc : clock job = none) :
    (∀ out, get_all_gauge_data jobs fetch clock n v = some out →
      lookupPair out.gauges job "job_reqtime_ms" = some (-1) ∧
      (JobMap.find? out.gauges job).isSome) ∧
    (n ≠ 0 → (get_all_gauge_data jobs fetch clock n v).isSome) := by
  constructor
  · intro out h
    unfold get_all_gauge_data at h
    have hr := go_reqtime fetch clock n v jobs ⟨[], 0, 0⟩ out h job hj
    simp only [elapsed_of, hc] at hr
    refine ⟨hr, ?_⟩
    unfold lookupPair at hr
    cases hfind : JobMap.find? out.gauges job with
    | none => rw [hfind] at hr; simp at hr
    | some m => rfl
  · intro hn
    exact go_isSome fetch clock n v hn jobs ⟨[], 0, 0⟩

/-- C8 witness: the concrete two-job cycle with a failing clock records
latency -1 for job beta while beta's metrics entry exists, and the cycle
completes. -/
theorem C8_witness :
    ("beta" ∈ sampleJobs) ∧ (sampleClockFail "beta" = none) ∧
    (lookupPair sampleSnapshotFail.gauges "beta" "job_reqtime_ms" = some (-1) ∧
      (JobMap.find? sampleSnapshotFail.gauges "beta").isSome) ∧
    (get_all_gauge_data sampleJobs sampleFetch sampleClockFail 1 0).isSome :=
  ⟨by decide, rfl,
   (C8_clock_failure_sentinel sampleJobs sampleFetch sampleClockFail 1 0 "beta"
      (by decide) rfl).1 sampleSnapshotFail rfl,
   (C8_clock_failure_sentinel sampleJobs sampleFetch sampleClockFail 1 0 "beta"
      (by decide) rfl).2 (by decide)⟩

/-- C9 counterexample: for the job vpp-verify the registered latency
gauge is vpp_verify_job_reqtime_ms, so no gauge named with the suffix
_reqtime_ms directly after the sanitized job identifier is registered;
the claimed name vpp_verify_reqtime_ms does not appear. -/
theorem C9_counterexample :
    "vpp_verify_reqtime_ms" ∉ registered_gauge_names ["vpp-verify"] ∧
    "vpp_verify_job_reqtime_ms" ∈ registered_gauge_names ["vpp-verify"] ∧
    registered_gauge_names ["vpp-verify"] =
      ["vpp_verify_total", "vpp_verify_success", "vpp_verify_failure",
       "vpp_verify_unstable", "vpp_verify_job_reqtime_ms"] := by
  refine ⟨by decide, by decide, rfl⟩

/-- C9 (amended): at startup, for every configured job exactly five
gauges are registered, named by the job identifier with hyphens replaced
by underscores followed by the suffixes _total, _success, _failure,
_unstable and _job_reqtime_ms. -/
theorem C9_registered_names (jobs : List String) :
    registered_gauge_names jobs = List.flatten (List.map (fun job =>
      [replace_dashes job ++ "_total", replace_dashes job ++ "_success",
       replace_dashes job ++ "_failure", replace_dashes job ++ "_unstable",
       replace_dashes job ++ "_job_reqtime_ms"]) jobs) ∧
    (registered_gauge_names jobs).length = 5 * jobs.length := by
  have hmap : ∀ job : String,
      List.map (fun gi => replace_dashes job ++ "_" ++ gi.1) gauge_info =
        [replace_dashes job ++ "_total", replace_dashes job ++ "_success",
         replace_dashes job ++ "_failure", replace_dashes job ++ "_unstable",
         replace_dashes job ++ "_job_reqtime_ms"] := by
    intro job
    simp only [gauge_info, List.map_cons, List.map_nil]
    rw [String.append_assoc, String.append_assoc, String.append_assoc,
      String.append_assoc, String.append_assoc]
    rfl
  constructor
  · exact congrArg List.flatten (List.map_congr_left (fun job _ => hmap job))
  · induction jobs with
    | nil => rfl
    | cons a t ih =>
      unfold registered_gauge_names at ih ⊢
      simp only [List.map_cons, List.flatten_cons, List.length_append, ih,
        List.length_map]
      simp [gauge_info]
      omega

/-- C10: if the configured window size (last_builds) is 0 and the fetch
succeeded, calc_metrics aborts (builds.windows(0) asserts a nonzero
size), so the reducer is total on successful fetches only under the
precondition window_size not 0. -/
theorem C10_zero_window_aborts (d : AllBuilds) (v : Int) :
    calc_metrics (.ok d) 0 v = none ∧
    ∀ n : Nat, n ≠ 0 → (calc_metrics (.ok d) n v).isSome := by
  constructor
  · simp [calc_metrics]
  · intro n hn
    exact calc_metrics_isSome (.ok d) n v hn

/-- C10 witness: the zero window aborts on the concrete 3-build history
while window 1 succeeds there. -/
theorem C10_witness :
    calc_metrics (.ok ⟨sampleBuilds⟩) 0 0 = none ∧
    (1 ≠ 0) ∧ (calc_metrics (.ok ⟨sampleBuilds⟩) 1 0).isSome :=
  ⟨(C10_zero_window_aborts ⟨sampleBuilds⟩ 0).1, by decide,
   (C10_zero_window_aborts ⟨sampleBuilds⟩ 0).2 1 (by decide)⟩
